import Mathlib

/-!
Shallow embedding of `src/main.py` of the hyocard relay service, together
with theorems about its observable behavior.

The service has three route handlers (`root`, `health`, `process`) and one
helper `call_gemini` that base64-encodes an uploaded image and forwards it,
with one of two fixed prompts, to an external generative-model API.  The
external API, the uploaded file's read result and the environment are
modelled as explicit parameters; the single upstream call made by a request
and the log lines printed are returned as traces so that claims about them
can be stated.
-/

namespace Hyocard

/-- JSON-like values, used to embed the `response_schema` dictionary literal
of `call_gemini` (src/main.py lines 63-72). -/
inductive Json where
  | str : String → Json
  | obj : List (String × Json) → Json

/-- Embedding of `types.GenerateContentConfig` as used at src/main.py
lines 61-73: only the two keyword arguments the source passes. -/
structure GenerateContentConfig where
  response_mime_type : String
  response_schema : Json

/-- The response-schema dictionary literal of src/main.py lines 63-72. -/
def flashcardSchema : Json :=
  Json.obj [("type", Json.str "ARRAY"),
            ("items", Json.obj
              [("type", Json.str "OBJECT"),
               ("properties", Json.obj
                 [("question", Json.obj [("type", Json.str "STRING")]),
                  ("answer", Json.obj [("type", Json.str "STRING")])])])]

/-- The config built at src/main.py lines 61-73 when `mode == "flashcards"`. -/
def flashcardConfig : GenerateContentConfig :=
  ⟨"application/json", flashcardSchema⟩

/-- `EXPLAIN_PROMPT` of src/main.py lines 40-43 (Python concatenates the two
adjacent string literals). -/
def EXPLAIN_PROMPT : String :=
  "You are a clear, friendly Korean tutor. Extract the text from the image and write a short explanation (3–6 sentences) in Korean."

/-- `FLASHCARD_PROMPT` of src/main.py lines 46-53. -/
def FLASHCARD_PROMPT : String :=
  "You are an assistant that creates Anki flashcards from study notes.\nExtract the key concepts from the image and create a list of Q&A pairs.\nReturn the output in this specific JSON structure:\n[\n  \x7b\"question\": \"Concept or Question in Korean\", \"answer\": \"Definition or Answer in Korean/English\"\x7d\n]"

/-- `MODEL` of src/main.py line 26: `os.getenv("GEMINI_MODEL", "gemini-2.5-flash")`,
with the environment value passed in explicitly. -/
def MODEL (gemini_model_env : Option String) : String :=
  gemini_model_env.getD "gemini-2.5-flash"

/-! ## Base64 (src/main.py line 56: `base64.b64encode(image_bytes).decode("utf-8")`)

Bytes are modelled as natural numbers below 256.  `b64encode` is the standard
RFC 4648 base64 encoding that Python's `base64.b64encode` implements;
`b64decode` is its inverse, defined here so that the round-trip property of
claim C7 can be stated. -/

/-- The standard base64 alphabet. -/
def b64Chars : List Char :=
  ['A','B','C','D','E','F','G','H','I','J','K','L','M',
   'N','O','P','Q','R','S','T','U','V','W','X','Y','Z',
   'a','b','c','d','e','f','g','h','i','j','k','l','m',
   'n','o','p','q','r','s','t','u','v','w','x','y','z',
   '0','1','2','3','4','5','6','7','8','9','+','/']

/-- The base64 character for a 6-bit value. -/
def b64Char (n : Nat) : Char := b64Chars.getD n '?'

/-- The 6-bit value of a base64 character (inverse lookup). -/
def decChar (c : Char) : Nat := b64Chars.indexOf c

/-- Base64-encode a byte list, three bytes to four characters, padding the
final group with `=` as RFC 4648 prescribes. -/
def encodeChunks : List Nat → List Char
  | b1 :: b2 :: b3 :: rest =>
      let n := b1 * 65536 + b2 * 256 + b3
      b64Char (n / 262144) :: b64Char (n / 4096 % 64) ::
        b64Char (n / 64 % 64) :: b64Char (n % 64) :: encodeChunks rest
  | [b1, b2] =>
      let n := b1 * 1024 + b2 * 4
      [b64Char (n / 4096), b64Char (n / 64 % 64), b64Char (n % 64), '=']
  | [b1] =>
      let n := b1 * 16
      [b64Char (n / 64), b64Char (n % 64), '=', '=']
  | [] => []

/-- Base64-decode a character list, four characters to three bytes, with the
two padded final-group forms. -/
def decodeChunks : List Char → List Nat
  | c1 :: c2 :: c3 :: c4 :: rest =>
      if c3 = '=' then
        [decChar c1 * 4 + decChar c2 / 16]
      else if c4 = '=' then
        let n := decChar c1 * 4096 + decChar c2 * 64 + decChar c3
        [n / 1024, n / 4 % 256]
      else
        let n := decChar c1 * 262144 + decChar c2 * 4096 +
                 decChar c3 * 64 + decChar c4
        n / 65536 :: n / 256 % 256 :: n % 256 :: decodeChunks rest
  | _ => []

/-- `base64.b64encode(...).decode("utf-8")`: the encoded bytes as a string. -/
def b64encode (bytes : List Nat) : String := ⟨encodeChunks bytes⟩

/-- Base64 decoding of a string back to bytes. -/
def b64decode (s : String) : List Nat := decodeChunks s.data

theorem decChar_b64Char : ∀ m, m < 64 → decChar (b64Char m) = m := by decide

theorem b64Char_ne_pad : ∀ m, m < 64 → b64Char m ≠ '=' := by decide

/-- Decoding inverts encoding on genuine byte lists. -/
theorem decodeChunks_encodeChunks :
    ∀ l : List Nat, (∀ b ∈ l, b < 256) → decodeChunks (encodeChunks l) = l
  | [], _ => by simp [encodeChunks, decodeChunks]
  | [b1], h => by
      have hb1 : b1 < 256 := h b1 (by simp)
      simp only [encodeChunks, decodeChunks, if_true]
      rw [decChar_b64Char _ (by omega), decChar_b64Char _ (by omega)]
      simp only [List.cons.injEq, and_true]
      omega
  | [b1, b2], h => by
      have hb1 : b1 < 256 := h b1 (by simp)
      have hb2 : b2 < 256 := h b2 (by simp)
      simp only [encodeChunks, decodeChunks]
      rw [if_neg (b64Char_ne_pad _ (by omega))]
      simp only [if_true]
      rw [decChar_b64Char _ (by omega), decChar_b64Char _ (by omega),
          decChar_b64Char _ (by omega)]
      simp only [List.cons.injEq, and_true]
      omega
  | b1 :: b2 :: b3 :: rest, h => by
      have hb1 : b1 < 256 := h b1 (by simp)
      have hb2 : b2 < 256 := h b2 (by simp)
      have hb3 : b3 < 256 := h b3 (by simp)
      have ih := decodeChunks_encodeChunks rest
        (fun b hb => h b (by simp [hb]))
      simp only [encodeChunks, decodeChunks]
      rw [if_neg (b64Char_ne_pad _ (by omega)),
          if_neg (b64Char_ne_pad _ (by omega))]
      rw [decChar_b64Char _ (by omega), decChar_b64Char _ (by omega),
          decChar_b64Char _ (by omega), decChar_b64Char _ (by omega)]
      rw [ih]
      simp only [List.cons.injEq, and_true]
      refine ⟨by omega, by omega, by omega⟩

/-- Round trip at the string level. -/
theorem b64decode_b64encode (l : List Nat) (h : ∀ b ∈ l, b < 256) :
    b64decode (b64encode l) = l :=
  decodeChunks_encodeChunks l h

/-! ## The service -/

/-- A Python exception as the handlers distinguish them: `process` has
`except RuntimeError` before `except Exception` (src/main.py lines 128-133). -/
inductive PyExc where
  | runtimeError : String → PyExc
  | otherError : String → PyExc

/-- An uploaded file as `process` uses it: `await image.read()` may yield
bytes or raise, and `image.content_type` is an optional MIME string. -/
structure UploadFile where
  readResult : Except PyExc (List Nat)
  content_type : Option String

/-- Python's `x or default` on an optional string (src/main.py line 116):
`None` and the empty string are falsy, any other string is truthy. -/
def pyOrString (x : Option String) (dflt : String) : String :=
  match x with
  | none => dflt
  | some s => if s = "" then dflt else s

/-- What the external `client.models.generate_content` call does: either the
returned response object has a `text` attribute with some value, or it lacks
one, or the call raises an exception with some message. -/
inductive UpstreamResult where
  | success : Option String → UpstreamResult
  | raises : String → UpstreamResult

/-- The single-turn request `call_gemini` submits (src/main.py lines 76-88):
the model name, the one user message holding a text part and an inline-data
part, and the optional generation config. -/
structure GenerateRequest where
  model : String
  role : String
  textPart : String
  inlineMimeType : String
  inlineData : String
  config : Option GenerateContentConfig

/-- The request built inside `call_gemini` from its arguments
(src/main.py lines 56-88). -/
def geminiRequest (modelName prompt_template : String) (image_bytes : List Nat)
    (mime_type mode : String) : GenerateRequest :=
  ⟨modelName, "user", prompt_template, mime_type, b64encode image_bytes,
   if mode = "flashcards" then some flashcardConfig else none⟩

/-- The observable outcome of `call_gemini`: the upstream calls it made, the
log lines it printed, and its return value — `Except.error` is the
`RuntimeError` it raises at src/main.py line 97, carrying the message. -/
structure CallOutcome where
  calls : List GenerateRequest
  logs : List String
  result : Except String String

/-- Embedding of `call_gemini` (src/main.py lines 55-97).  The external API
is an explicit parameter `upstream`; `modelName` is the process-level
`MODEL` value. -/
def call_gemini (upstream : GenerateRequest → UpstreamResult)
    (modelName : String) (prompt_template : String) (image_bytes : List Nat)
    (mime_type : String) (mode : String) : CallOutcome :=
  let req := geminiRequest modelName prompt_template image_bytes mime_type mode
  match upstream req with
  | UpstreamResult.success (some t) => ⟨[req], [], Except.ok t⟩
  | UpstreamResult.success none => ⟨[req], [], Except.ok "No text returned"⟩
  | UpstreamResult.raises e =>
      ⟨[req], ["Gemini Error: " ++ e],
       Except.error ("Gemini request failed: " ++ e)⟩

/-- An HTTP response: status code and a flat JSON-object body (every body
this service produces is a one-key string-valued object). -/
structure HttpResponse where
  status : Nat
  body : List (String × String)

/-- The observable outcome of one `/process` request: the HTTP response plus
the upstream-call and log traces. -/
structure ProcessOutcome where
  response : HttpResponse
  calls : List GenerateRequest
  logs : List String

/-- Embedding of the `/process` handler (src/main.py lines 112-133).
Reading the upload, choosing the prompt, calling `call_gemini`, and the two
`except` arms: `RuntimeError` yields the `API 처리 오류` 500 body, any other
exception the `서버 처리 오류` 500 body. -/
def process (upstream : GenerateRequest → UpstreamResult) (modelName : String)
    (image : UploadFile) (mode : String) : ProcessOutcome :=
  match image.readResult with
  | Except.error (PyExc.runtimeError m) =>
      ⟨⟨500, [("error", "API 처리 오류: " ++ m)]⟩, [], []⟩
  | Except.error (PyExc.otherError m) =>
      ⟨⟨500, [("error", "서버 처리 오류: " ++ m)]⟩, [], []⟩
  | Except.ok image_bytes =>
      let mime_type := pyOrString image.content_type "image/png"
      let prompt := if mode = "explain" then EXPLAIN_PROMPT else FLASHCARD_PROMPT
      let out := call_gemini upstream modelName prompt image_bytes mime_type mode
      match out.result with
      | Except.ok result_text =>
          ⟨⟨200, [("result", result_text)]⟩, out.calls, out.logs⟩
      | Except.error e =>
          ⟨⟨500, [("error", "API 처리 오류: " ++ e)]⟩, out.calls, out.logs⟩

/-- Embedding of the `/health` handler (src/main.py lines 107-109). -/
def health : HttpResponse :=
  ⟨200, [("status", "ok")]⟩

/-- Embedding of the `/` handler (src/main.py lines 103-105). -/
def root : HttpResponse :=
  ⟨200, [("message", "Hyocard FastAPI service is running. Use /process endpoint for image processing.")]⟩

/-- A concrete upstream oracle used by witnesses and counterexamples: always
succeeds with text `"Hello"`. -/
def okUpstream : GenerateRequest → UpstreamResult :=
  fun _ => UpstreamResult.success (some "Hello")

/-- A concrete upstream oracle whose response object lacks a text field. -/
def noneUpstream : GenerateRequest → UpstreamResult :=
  fun _ => UpstreamResult.success none

/-- A concrete upstream oracle that always raises. -/
def failUpstream : GenerateRequest → UpstreamResult :=
  fun _ => UpstreamResult.raises "boom"

/-- The request a `/process` request with readable bytes ends up submitting:
prompt chosen by mode (src/main.py line 118), MIME type defaulted
(line 116), handed to `call_gemini`. -/
def processRequest (modelName : String) (bytes : List Nat) (ct : Option String)
    (mode : String) : GenerateRequest :=
  geminiRequest modelName
    (if mode = "explain" then EXPLAIN_PROMPT else FLASHCARD_PROMPT)
    bytes (pyOrString ct "image/png") mode

/-- Evaluation of `process` when the upload read succeeds, by cases on the
upstream outcome. -/
theorem process_ok_eq (upstream : GenerateRequest → UpstreamResult)
    (mn : String) (bytes : List Nat) (ct : Option String) (mode : String) :
    process upstream mn ⟨Except.ok bytes, ct⟩ mode =
      match upstream (processRequest mn bytes ct mode) with
      | UpstreamResult.success (some t) =>
          ⟨⟨200, [("result", t)]⟩, [processRequest mn bytes ct mode], []⟩
      | UpstreamResult.success none =>
          ⟨⟨200, [("result", "No text returned")]⟩,
           [processRequest mn bytes ct mode], []⟩
      | UpstreamResult.raises e =>
          ⟨⟨500, [("error", "API 처리 오류: " ++ ("Gemini request failed: " ++ e))]⟩,
           [processRequest mn bytes ct mode], ["Gemini Error: " ++ e]⟩ := by
  have hreq : geminiRequest mn
      (if mode = "explain" then EXPLAIN_PROMPT else FLASHCARD_PROMPT)
      bytes (pyOrString ct "image/png") mode = processRequest mn bytes ct mode := rfl
  unfold process call_gemini
  dsimp only
  rw [hreq]
  cases upstream (processRequest mn bytes ct mode) with
  | success o => cases o <;> rfl
  | raises e => rfl

/-- A `/process` request whose upload read succeeds makes exactly one
upstream call, namely `processRequest`. -/
theorem process_ok_calls (upstream : GenerateRequest → UpstreamResult)
    (mn : String) (bytes : List Nat) (ct : Option String) (mode : String) :
    (process upstream mn ⟨Except.ok bytes, ct⟩ mode).calls =
      [processRequest mn bytes ct mode] := by
  rw [process_ok_eq]
  cases upstream (processRequest mn bytes ct mode) with
  | success o => cases o <;> rfl
  | raises e => rfl

/-! ## Claims -/

/-- C1 counterexample: with the unrecognized mode `"quiz"` (which differs
from `"explain"`), the single upstream call is made with `config = none` —
the JSON array-of-question/answer schema constraint is NOT applied, refuting
the claim that every non-`"explain"` mode gets the schema constraint. -/
theorem C1_claim_counterexample :
    "quiz" ≠ "explain" ∧
    (process okUpstream "gemini-2.5-flash"
        ⟨Except.ok [1, 2, 3], some "image/png"⟩ "quiz").calls.map
      (fun r => r.config) ≠ [some flashcardConfig] := by
  refine ⟨by decide, ?_⟩
  rw [process_ok_calls]
  simp [processRequest, geminiRequest]

/-- C1 (amended): for every call to `process` with a mode string not equal
to the literal `"explain"`, the flashcard prompt template is selected; the
JSON array-of-question/answer output-schema constraint is configured exactly
when the mode is the literal `"flashcards"`, and not for other unrecognized
modes. -/
theorem C1_flashcard_prompt_schema_iff_flashcards
    (upstream : GenerateRequest → UpstreamResult) (mn : String)
    (bytes : List Nat) (ct : Option String) (mode : String)
    (h : mode ≠ "explain") :
    (process upstream mn ⟨Except.ok bytes, ct⟩ mode).calls.map
        (fun r => r.textPart) = [FLASHCARD_PROMPT] ∧
    (process upstream mn ⟨Except.ok bytes, ct⟩ mode).calls.map
        (fun r => r.config) =
      [if mode = "flashcards" then some flashcardConfig else none] := by
  rw [process_ok_calls]
  simp [processRequest, geminiRequest, h]

/-- C1 witness: instantiation at mode `"flashcards"`. -/
theorem C1_flashcard_witness :
    (process okUpstream "gemini-2.5-flash"
        ⟨Except.ok [1, 2, 3], none⟩ "flashcards").calls.map
      (fun r => r.textPart) = [FLASHCARD_PROMPT] ∧
    (process okUpstream "gemini-2.5-flash"
        ⟨Except.ok [1, 2, 3], none⟩ "flashcards").calls.map
      (fun r => r.config) =
        [if "flashcards" = "flashcards" then some flashcardConfig else none] :=
  C1_flashcard_prompt_schema_iff_flashcards okUpstream "gemini-2.5-flash"
    [1, 2, 3] none "flashcards" (by decide)

/-- C2: whenever the upstream call raises, `process` catches the exception
and returns HTTP 500 with a JSON body whose `error` field carries the
re-signaled generic `Gemini request failed` message, the error is logged
(`Gemini Error: ...`), and exactly one upstream call was made (no retry). -/
theorem C2_upstream_raises_500_no_retry
    (upstream : GenerateRequest → UpstreamResult) (mn : String)
    (bytes : List Nat) (ct : Option String) (mode e : String)
    (h : upstream (processRequest mn bytes ct mode) = UpstreamResult.raises e) :
    (process upstream mn ⟨Except.ok bytes, ct⟩ mode).response =
      ⟨500, [("error", "API 처리 오류: " ++ ("Gemini request failed: " ++ e))]⟩ ∧
    (process upstream mn ⟨Except.ok bytes, ct⟩ mode).logs =
      ["Gemini Error: " ++ e] ∧
    (process upstream mn ⟨Except.ok bytes, ct⟩ mode).calls =
      [processRequest mn bytes ct mode] := by
  rw [process_ok_eq, h]
  exact ⟨rfl, rfl, rfl⟩

/-- C2 witness: a concrete request against an upstream that raises. -/
theorem C2_raises_witness :
    (process failUpstream "gemini-2.5-flash"
        ⟨Except.ok [1], none⟩ "explain").response =
      ⟨500, [("error", "API 처리 오류: " ++ ("Gemini request failed: " ++ "boom"))]⟩ ∧
    (process failUpstream "gemini-2.5-flash"
        ⟨Except.ok [1], none⟩ "explain").logs = ["Gemini Error: " ++ "boom"] ∧
    (process failUpstream "gemini-2.5-flash"
        ⟨Except.ok [1], none⟩ "explain").calls =
      [processRequest "gemini-2.5-flash" [1] none "explain"] :=
  C2_upstream_raises_500_no_retry failUpstream "gemini-2.5-flash"
    [1] none "explain" "boom" rfl

/-- C3: whenever the upstream call succeeds and the response object carries
text `t`, `process` returns HTTP 200 with body `[("result", t)]`, the text
unmodified. -/
theorem C3_success_text_passthrough
    (upstream : GenerateRequest → UpstreamResult) (mn : String)
    (bytes : List Nat) (ct : Option String) (mode t : String)
    (h : upstream (processRequest mn bytes ct mode) =
      UpstreamResult.success (some t)) :
    (process upstream mn ⟨Except.ok bytes, ct⟩ mode).response =
      ⟨200, [("result", t)]⟩ := by
  rw [process_ok_eq, h]

/-- C3 witness: upstream text `"Hello"` yields `[("result", "Hello")]`. -/
theorem C3_hello_witness :
    (process okUpstream "gemini-2.5-flash"
        ⟨Except.ok [1], none⟩ "explain").response =
      ⟨200, [("result", "Hello")]⟩ :=
  C3_success_text_passthrough okUpstream "gemini-2.5-flash"
    [1] none "explain" "Hello" rfl

/-- C4: whenever the upstream call succeeds but the response object lacks a
text field, `process` does not fail: it returns HTTP 200 with the literal
`"No text returned"` as the result. -/
theorem C4_no_text_field_fallback
    (upstream : GenerateRequest → UpstreamResult) (mn : String)
    (bytes : List Nat) (ct : Option String) (mode : String)
    (h : upstream (processRequest mn bytes ct mode) =
      UpstreamResult.success none) :
    (process upstream mn ⟨Except.ok bytes, ct⟩ mode).response =
      ⟨200, [("result", "No text returned")]⟩ := by
  rw [process_ok_eq, h]

/-- C4 witness: a concrete request against an upstream whose response has no
text field. -/
theorem C4_no_text_witness :
    (process noneUpstream "gemini-2.5-flash"
        ⟨Except.ok [1], none⟩ "explain").response =
      ⟨200, [("result", "No text returned")]⟩ :=
  C4_no_text_field_fallback noneUpstream "gemini-2.5-flash"
    [1] none "explain" rfl

/-- C5: the config sent upstream carries the output schema exactly when the
mode is `"flashcards"`, and then it is exactly the fixed shape: an ARRAY of
OBJECTs each with a STRING `question` and a STRING `answer` property; for
every other mode no config is sent. -/
theorem C5_schema_exactly_and_only_flashcards
    (upstream : GenerateRequest → UpstreamResult) (mn : String)
    (bytes : List Nat) (ct : Option String) (mode : String) :
    (process upstream mn ⟨Except.ok bytes, ct⟩ mode).calls.map
        (fun r => r.config) =
      [if mode = "flashcards" then
        some ⟨"application/json",
          Json.obj [("type", Json.str "ARRAY"),
            ("items", Json.obj
              [("type", Json.str "OBJECT"),
               ("properties", Json.obj
                 [("question", Json.obj [("type", Json.str "STRING")]),
                  ("answer", Json.obj [("type", Json.str "STRING")])])])]⟩
       else none] := by
  rw [process_ok_calls]
  simp only [processRequest, geminiRequest, List.map_cons, List.map_nil]
  rfl

/-- C6: for mode exactly `"explain"`, the explanation prompt is selected and
no output-schema config is passed upstream. -/
theorem C6_explain_prompt_no_schema
    (upstream : GenerateRequest → UpstreamResult) (mn : String)
    (bytes : List Nat) (ct : Option String) :
    (process upstream mn ⟨Except.ok bytes, ct⟩ "explain").calls.map
        (fun r => r.textPart) = [EXPLAIN_PROMPT] ∧
    (process upstream mn ⟨Except.ok bytes, ct⟩ "explain").calls.map
        (fun r => r.config) = [none] := by
  rw [process_ok_calls]
  simp [processRequest, geminiRequest]

/-- C7: the inline data submitted upstream is exactly the base64 encoding of
the uploaded bytes, sent alongside the selected instruction text in a single
call, and base64-decoding it recovers the original bytes. -/
theorem C7_inline_data_base64_roundtrip
    (upstream : GenerateRequest → UpstreamResult) (mn : String)
    (bytes : List Nat) (ct : Option String) (mode : String)
    (h : ∀ b ∈ bytes, b < 256) :
    (process upstream mn ⟨Except.ok bytes, ct⟩ mode).calls.map
        (fun r => r.inlineData) = [b64encode bytes] ∧
    (process upstream mn ⟨Except.ok bytes, ct⟩ mode).calls.map
        (fun r => r.textPart) =
      [if mode = "explain" then EXPLAIN_PROMPT else FLASHCARD_PROMPT] ∧
    (process upstream mn ⟨Except.ok bytes, ct⟩ mode).calls.length = 1 ∧
    b64decode (b64encode bytes) = bytes := by
  refine ⟨?_, ?_, ?_, b64decode_b64encode bytes h⟩ <;>
    rw [process_ok_calls] <;> simp [processRequest, geminiRequest]

/-- C7 witness: concrete bytes `[72, 105, 33]` round-trip through the
submitted inline data. -/
theorem C7_roundtrip_witness :
    (process okUpstream "gemini-2.5-flash"
        ⟨Except.ok [72, 105, 33], none⟩ "explain").calls.map
      (fun r => r.inlineData) = [b64encode [72, 105, 33]] ∧
    (process okUpstream "gemini-2.5-flash"
        ⟨Except.ok [72, 105, 33], none⟩ "explain").calls.map
      (fun r => r.textPart) =
        [if "explain" = "explain" then EXPLAIN_PROMPT else FLASHCARD_PROMPT] ∧
    (process okUpstream "gemini-2.5-flash"
        ⟨Except.ok [72, 105, 33], none⟩ "explain").calls.length = 1 ∧
    b64decode (b64encode [72, 105, 33]) = [72, 105, 33] :=
  C7_inline_data_base64_roundtrip okUpstream "gemini-2.5-flash"
    [72, 105, 33] none "explain" (by decide)

/-- C8 counterexample: an upload whose declared content type is the empty
string is a declared content type that is NOT used — Python's `or` treats
the empty string as falsy, so the call is made with `"image/png"` instead. -/
theorem C8_claim_counterexample :
    (process okUpstream "gemini-2.5-flash"
        ⟨Except.ok [1], some ""⟩ "explain").calls.map
      (fun r => r.inlineMimeType) = ["image/png"] ∧ "image/png" ≠ "" := by
  refine ⟨?_, by decide⟩
  rw [process_ok_calls]
  simp [processRequest, geminiRequest, pyOrString]

/-- C8 (amended): with no declared content type the media type used for the
external call defaults to `"image/png"`; a declared non-empty content type
is used as declared; a declared empty content type also falls back to
`"image/png"`. -/
theorem C8_mime_type_default
    (upstream : GenerateRequest → UpstreamResult) (mn : String)
    (bytes : List Nat) (mode : String) :
    (process upstream mn ⟨Except.ok bytes, none⟩ mode).calls.map
        (fun r => r.inlineMimeType) = ["image/png"] ∧
    (∀ s : String, s ≠ "" →
      (process upstream mn ⟨Except.ok bytes, some s⟩ mode).calls.map
        (fun r => r.inlineMimeType) = [s]) ∧
    (process upstream mn ⟨Except.ok bytes, some ""⟩ mode).calls.map
        (fun r => r.inlineMimeType) = ["image/png"] := by
  refine ⟨?_, fun s hs => ?_, ?_⟩ <;> rw [process_ok_calls] <;>
    simp [processRequest, geminiRequest, pyOrString]
  intro h
  exact absurd h hs

/-- C8 witness: a declared content type `"image/jpeg"` is used as declared. -/
theorem C8_mime_type_witness :
    (process okUpstream "gemini-2.5-flash"
        ⟨Except.ok [1], some "image/jpeg"⟩ "explain").calls.map
      (fun r => r.inlineMimeType) = ["image/jpeg"] :=
  (C8_mime_type_default okUpstream "gemini-2.5-flash" [1] "explain").2.1
    "image/jpeg" (by decide)

/-- C9: the `/health` handler returns HTTP 200 with body
`[("status", "ok")]`; it takes no inputs, so the outcome is independent of
upstream availability and of any prior request. -/
theorem C9_health_always_ok :
    health = ⟨200, [("status", "ok")]⟩ := rfl

/-- C10: the `/process` handler is total: for every upload read result,
declared content type, mode and upstream behavior it yields exactly one of
the two response shapes — HTTP 200 with a single `result` key, or HTTP 500
with a single `error` key. -/
theorem C10_process_total_two_shapes
    (upstream : GenerateRequest → UpstreamResult) (mn : String)
    (rd : Except PyExc (List Nat)) (ct : Option String) (mode : String) :
    ((process upstream mn ⟨rd, ct⟩ mode).response.status = 200 ∧
      ∃ t, (process upstream mn ⟨rd, ct⟩ mode).response.body = [("result", t)]) ∨
    ((process upstream mn ⟨rd, ct⟩ mode).response.status = 500 ∧
      ∃ m, (process upstream mn ⟨rd, ct⟩ mode).response.body = [("error", m)]) := by
  rcases rd with e | bytes
  · rcases e with m | m
    · exact Or.inr ⟨rfl, "API 처리 오류: " ++ m, rfl⟩
    · exact Or.inr ⟨rfl, "서버 처리 오류: " ++ m, rfl⟩
  · rw [process_ok_eq]
    cases upstream (processRequest mn bytes ct mode) with
    | success o =>
        cases o with
        | none => exact Or.inl ⟨rfl, "No text returned", rfl⟩
        | some t => exact Or.inl ⟨rfl, t, rfl⟩
    | raises e =>
        exact Or.inr ⟨rfl, "API 처리 오류: " ++ ("Gemini request failed: " ++ e), rfl⟩

end Hyocard
